import Mathlib

/-!
# Wave2Joy haptic pattern generator — verification of the spec against `src/script.js`

Shallow embedding of the `patternGenerator` object of `src/script.js` and of the
constants and helpers it uses.  JavaScript numbers are modelled as rationals
(`ℚ`); the one place the source calls `Math.sin`, the computation is carried
out in `ℝ`.  `Math.random()` draws are passed in explicitly, one record of
draws per tick, so every update function is a pure state-transition function
`Config → draws → dt → GenState → GenState × output`.
-/

namespace Wave2Joy

/-- The motor selected by stochastic mode (`'left'` / `'right'` in the source). -/
inductive Motor
  | left
  | right
deriving DecidableEq, Repr

/-- The stochastic sub-state (`'gap'` / `'buzz'` in the source). -/
inductive StochasticPhase
  | gap
  | buzz
deriving DecidableEq, Repr

/-- The mode identifiers dispatched on in `gameLoop` (`config.mode`). -/
inductive Mode
  | stochastic
  | breathing_pulse
  | cycle
  | constant_weak
  | constant_strong
  | constant_max
deriving DecidableEq, Repr

/-- The numeric configuration fields read by the generator
(populated from sliders in `updateConfigFromUI`). -/
structure Config where
  peakTime : ℚ
  weakIntensity : ℚ
  strongIntensity : ℚ
  maxIntensity : ℚ
  buzzMin : ℚ
  buzzMax : ℚ
  maxGap : ℚ
  breathingPulseMinIntensity : ℚ
  breathingPulsePeriod : ℚ
  breathingPulseSyncPeriod : ℚ
deriving DecidableEq, Repr

/-- The mutable state of `patternGenerator` (source lines 12–24). -/
structure GenState where
  currentTime : ℚ
  stochasticPhase : StochasticPhase
  stochasticPhaseEndTime : ℚ
  stochasticNextMotor : Motor
  pulseTime : ℚ
  cyclePhaseIndex : ℤ
  lastPulseCycleIndex : ℤ
  breathingTime : ℚ
deriving DecidableEq, Repr

/-- The initial field values of the `patternGenerator` object literal. -/
def initState : GenState :=
  { currentTime := 0
    stochasticPhase := .gap
    stochasticPhaseEndTime := 0
    stochasticNextMotor := .left
    pulseTime := 0
    cyclePhaseIndex := 0
    lastPulseCycleIndex := -1
    breathingTime := 0 }

/-- `patternGenerator.start()` (source lines 26–34).  Note the source resets
every field except `stochasticNextMotor`. -/
def start (s : GenState) : GenState :=
  { s with
    currentTime := 0
    stochasticPhase := .gap
    stochasticPhaseEndTime := 0
    pulseTime := 0
    cyclePhaseIndex := 0
    lastPulseCycleIndex := -1
    breathingTime := 0 }

/-- `CONSTANT_PULSE_BUZZ_MS` (source line 8). -/
def CONSTANT_PULSE_BUZZ_MS : ℚ := 200

/-- `CONSTANT_PULSE_GAP_MS` (source line 9). -/
def CONSTANT_PULSE_GAP_MS : ℚ := 100

/-- Truncation toward zero, as JavaScript's `%` uses on its quotient. -/
def jsTrunc (q : ℚ) : ℤ := if 0 ≤ q then ⌊q⌋ else ⌈q⌉

/-- JavaScript's remainder operator `a % b` on numbers:
`a - b * trunc(a / b)` (sign follows the dividend). -/
def jsMod (a b : ℚ) : ℚ := a - b * (jsTrunc (a / b) : ℚ)

/-- One tick's worth of `Math.random()` draws, each in `[0,1)`, in the order
the source consumes them inside one `update*` call. -/
structure Rand where
  durationDraw : ℚ
  motorDraw : ℚ
  intensityDraw : ℚ
deriving DecidableEq, Repr

/-- The intensity envelope of stochastic mode (source lines 54–56):
`0.3 + 0.7 * (min 1 (t / peakTime))²`. -/
def globalMultiplier (cfg : Config) (t : ℚ) : ℚ :=
  let progress := min 1 (t / cfg.peakTime)
  let easedProgress := progress * progress
  3/10 + 7/10 * easedProgress

/-- `patternGenerator.updateStochastic(dt)` (source lines 38–63). -/
def updateStochastic (cfg : Config) (r : Rand) (dt : ℚ) (s : GenState) :
    GenState × (ℚ × ℚ) :=
  let t := s.currentTime + dt
  let s' : GenState :=
    if s.stochasticPhaseEndTime ≤ t then
      if s.stochasticPhase = .gap then
        let buzzDuration := r.durationDraw * (cfg.buzzMax - cfg.buzzMin) + cfg.buzzMin
        { s with
          currentTime := t
          stochasticPhase := .buzz
          stochasticPhaseEndTime := t + buzzDuration / 1000
          stochasticNextMotor := if r.motorDraw < 1/2 then .left else .right }
      else
        let gapDuration := r.durationDraw * cfg.maxGap
        { s with
          currentTime := t
          stochasticPhase := .gap
          stochasticPhaseEndTime := t + gapDuration / 1000 }
    else
      { s with currentTime := t }
  if s'.stochasticPhase = .buzz then
    let baseIntensity :=
      r.intensityDraw * (cfg.strongIntensity - cfg.weakIntensity) + cfg.weakIntensity
    let targetIntensity := baseIntensity * globalMultiplier cfg s'.currentTime
    match s'.stochasticNextMotor with
    | .left => (s', (targetIntensity, 0))
    | .right => (s', (0, targetIntensity))
  else
    (s', (0, 0))

/-- The guarded period of breathing mode: `p > 0 ? p : 1`
(source lines 69–70). -/
def breathingEffectivePeriod (period : ℚ) : ℚ :=
  if 0 < period then period else 1

/-- `patternGenerator.updateBreathingPulse(dt)` (source lines 65–80).
The sine synthesis is carried out in `ℝ`. -/
noncomputable def updateBreathingPulse (cfg : Config) (dt : ℚ) (s : GenState) :
    GenState × (ℝ × ℝ) :=
  let t := s.breathingTime + dt
  let baseFreq : ℚ := 1 / breathingEffectivePeriod cfg.breathingPulsePeriod
  let beatFreq : ℚ := 1 / breathingEffectivePeriod cfg.breathingPulseSyncPeriod
  let freqLeft := baseFreq
  let freqRight := baseFreq + beatFreq
  let center : ℚ := (cfg.maxIntensity + cfg.breathingPulseMinIntensity) / 2
  let amplitude : ℚ := (cfg.maxIntensity - cfg.breathingPulseMinIntensity) / 2
  let phaseLeft : ℝ := 2 * Real.pi * (freqLeft : ℝ) * (t : ℝ)
  let intensityLeft : ℝ := (center : ℝ) + (amplitude : ℝ) * Real.sin phaseLeft
  let phaseRight : ℝ := 2 * Real.pi * (freqRight : ℝ) * (t : ℝ)
  let intensityRight : ℝ := (center : ℝ) + (amplitude : ℝ) * Real.sin phaseRight
  ({ s with breathingTime := t }, (intensityLeft, intensityRight))

/-- `patternGenerator.updateConstant(dt, mode)` (source lines 82–95). -/
def updateConstant (cfg : Config) (mode : Mode) (dt : ℚ) (s : GenState) :
    GenState × (ℚ × ℚ) :=
  let pulseTime := s.pulseTime + dt * 1000
  let totalPulseDuration := CONSTANT_PULSE_BUZZ_MS + CONSTANT_PULSE_GAP_MS
  let phaseTime := jsMod pulseTime totalPulseDuration
  let out : ℚ × ℚ :=
    if phaseTime < CONSTANT_PULSE_BUZZ_MS then
      let intensity :=
        if mode = .constant_weak then cfg.weakIntensity
        else if mode = .constant_strong then cfg.strongIntensity
        else if mode = .constant_max then cfg.maxIntensity
        else 0
      (intensity, intensity)
    else (0, 0)
  ({ s with pulseTime := pulseTime }, out)

/-- The `switch (this.cyclePhaseIndex)` body of `updateCycle`
(source lines 109–126): the intensity pair emitted for each phase index
during the buzz window. -/
def cyclePattern (cfg : Config) (i : ℤ) : ℚ × ℚ :=
  if i = 0 then (cfg.strongIntensity, cfg.strongIntensity)
  else if i = 1 then (cfg.maxIntensity, cfg.maxIntensity)
  else if i = 2 then (cfg.maxIntensity, 0)
  else if i = 3 then (0, cfg.maxIntensity)
  else (0, 0)

/-- `patternGenerator.updateCycle(dt)` (source lines 97–129). -/
def updateCycle (cfg : Config) (dt : ℚ) (s : GenState) : GenState × (ℚ × ℚ) :=
  let pulseTime := s.pulseTime + dt * 1000
  let totalPulseDuration := CONSTANT_PULSE_BUZZ_MS + CONSTANT_PULSE_GAP_MS
  let currentPulseCycleIndex : ℤ := ⌊pulseTime / totalPulseDuration⌋
  let cyclePhaseIndex : ℤ :=
    if s.lastPulseCycleIndex < currentPulseCycleIndex then (s.cyclePhaseIndex + 1) % 4
    else s.cyclePhaseIndex
  let lastPulseCycleIndex : ℤ :=
    if s.lastPulseCycleIndex < currentPulseCycleIndex then currentPulseCycleIndex
    else s.lastPulseCycleIndex
  let phaseTime := jsMod pulseTime totalPulseDuration
  let out : ℚ × ℚ :=
    if phaseTime < CONSTANT_PULSE_BUZZ_MS then cyclePattern cfg cyclePhaseIndex
    else (0, 0)
  ({ s with
      pulseTime := pulseTime
      cyclePhaseIndex := cyclePhaseIndex
      lastPulseCycleIndex := lastPulseCycleIndex }, out)

/-- Running stochastic mode over a list of ticks (one `Rand` record and one
`dt` per tick), returning the final state. -/
def runStochastic (cfg : Config) : List (Rand × ℚ) → GenState → GenState
  | [], s => s
  | (r, dt) :: rest, s => runStochastic cfg rest (updateStochastic cfg r dt s).1

/-- Running cycle mode over a list of `dt` ticks, returning the final state. -/
def runCycle (cfg : Config) : List ℚ → GenState → GenState
  | [], s => s
  | dt :: rest, s => runCycle cfg rest (updateCycle cfg dt s).1

/-- Running a constant mode over a list of `dt` ticks, collecting the output
pairs in order. -/
def constantTrace (cfg : Config) (mode : Mode) : List ℚ → GenState → List (ℚ × ℚ)
  | [], _ => []
  | dt :: rest, s =>
    let res := updateConstant cfg mode dt s
    res.2 :: constantTrace cfg mode rest res.1

/-- A tick list "covers every pulse period" from state `s`: no tick jumps the
pulse-period index more than one past `lastPulseCycleIndex`, i.e. at least one
tick lands in every 300 ms period. -/
def CycleCovers (cfg : Config) : List ℚ → GenState → Prop
  | [], _ => True
  | dt :: rest, s =>
    ⌊(s.pulseTime + dt * 1000) / (CONSTANT_PULSE_BUZZ_MS + CONSTANT_PULSE_GAP_MS)⌋
      ≤ s.lastPulseCycleIndex + 1
    ∧ CycleCovers cfg rest (updateCycle cfg dt s).1

/-- Inductive invariant of cycle mode, established by the first covered tick
after `start()`: `pulseTime` is nonnegative, `lastPulseCycleIndex` tracks the
current 300 ms period index, and `cyclePhaseIndex` is one step ahead of that
index mod 4 (because the sequencer advances on entering each period). -/
def CycleInv (s : GenState) : Prop :=
  0 ≤ s.pulseTime ∧
  s.lastPulseCycleIndex = ⌊s.pulseTime / 300⌋ ∧
  s.cyclePhaseIndex = (s.lastPulseCycleIndex + 1) % 4

/-- A cycle-mode state either satisfies the invariant or has its pulse fields
exactly as `start()` leaves them. -/
def CyclePre (s : GenState) : Prop :=
  CycleInv s ∨ (s.pulseTime = 0 ∧ s.lastPulseCycleIndex = -1 ∧ s.cyclePhaseIndex = 0)

/-- A sample configuration used to instantiate theorems at concrete inputs. -/
def cfg0 : Config :=
  { peakTime := 60
    weakIntensity := 80
    strongIntensity := 150
    maxIntensity := 255
    buzzMin := 100
    buzzMax := 300
    maxGap := 1000
    breathingPulseMinIntensity := 50
    breathingPulsePeriod := 4
    breathingPulseSyncPeriod := 60 }

/-! ## Helper lemmas -/

/-- At session time 0 the stochastic envelope is at its 30% floor. -/
lemma globalMultiplier_zero (cfg : Config) : globalMultiplier cfg 0 = 3/10 := by
  unfold globalMultiplier
  rw [zero_div, min_eq_right (by norm_num : (0:ℚ) ≤ 1)]
  norm_num

/-- `updateStochastic` always advances `currentTime` by exactly `dt`. -/
lemma updateStochastic_currentTime (cfg : Config) (r : Rand) (dt : ℚ) (s : GenState) :
    (updateStochastic cfg r dt s).1.currentTime = s.currentTime + dt := by
  unfold updateStochastic
  dsimp only
  repeat' split
  all_goals rfl

/-- A run of stochastic ticks with nonnegative `dt`s keeps `currentTime`
nonnegative. -/
lemma runStochastic_currentTime_nonneg (cfg : Config) (ticks : List (Rand × ℚ))
    (s : GenState) (h0 : 0 ≤ s.currentTime) (h : ∀ p ∈ ticks, 0 ≤ p.2) :
    0 ≤ (runStochastic cfg ticks s).currentTime := by
  induction ticks generalizing s with
  | nil => exact h0
  | cons p rest ih =>
    obtain ⟨r, dt⟩ := p
    simp only [runStochastic]
    refine ih _ ?_ fun q hq => h q (List.mem_cons_of_mem _ hq)
    rw [updateStochastic_currentTime]
    have := h (r, dt) (List.mem_cons_self _ _)
    simp only at this
    linarith

/-- The envelope is bounded by 1 for nonnegative session time and positive
peak time, and saturates exactly once session time reaches the peak time. -/
lemma globalMultiplier_bounds (cfg : Config) (t : ℚ) (hpk : 0 < cfg.peakTime)
    (ht : 0 ≤ t) :
    globalMultiplier cfg t ≤ 1 ∧ (cfg.peakTime ≤ t → globalMultiplier cfg t = 1) := by
  unfold globalMultiplier
  constructor
  · have h1 : min 1 (t / cfg.peakTime) ≤ 1 := min_le_left _ _
    have h0 : 0 ≤ min 1 (t / cfg.peakTime) :=
      le_min (by norm_num) (div_nonneg ht hpk.le)
    nlinarith
  · intro hle
    have h1 : (1 : ℚ) ≤ t / cfg.peakTime := (one_le_div hpk).mpr hle
    rw [min_eq_left h1]
    norm_num

/-- The output of `updateBreathingPulse`, characterized without `let`s:
each channel is `center + amplitude * sin(2π·freq·t)` for its frequency. -/
lemma updateBreathingPulse_out (cfg : Config) (dt : ℚ) (s : GenState) :
    (updateBreathingPulse cfg dt s).2 =
      ((((cfg.maxIntensity + cfg.breathingPulseMinIntensity) / 2 : ℚ) : ℝ) +
        (((cfg.maxIntensity - cfg.breathingPulseMinIntensity) / 2 : ℚ) : ℝ) *
          Real.sin (2 * Real.pi *
            ((1 / breathingEffectivePeriod cfg.breathingPulsePeriod : ℚ) : ℝ) *
            ((s.breathingTime + dt : ℚ) : ℝ)),
       (((cfg.maxIntensity + cfg.breathingPulseMinIntensity) / 2 : ℚ) : ℝ) +
        (((cfg.maxIntensity - cfg.breathingPulseMinIntensity) / 2 : ℚ) : ℝ) *
          Real.sin (2 * Real.pi *
            ((1 / breathingEffectivePeriod cfg.breathingPulsePeriod +
              1 / breathingEffectivePeriod cfg.breathingPulseSyncPeriod : ℚ) : ℝ) *
            ((s.breathingTime + dt : ℚ) : ℝ))) := by
  unfold updateBreathingPulse
  push_cast
  norm_num

/-- A sine wave with center `(M+m)/2` and amplitude `(M-m)/2` stays in
`[m, M]` whenever `m ≤ M`. -/
lemma center_amp_bounds (m M θ : ℝ) (h : m ≤ M) :
    m ≤ (M + m) / 2 + (M - m) / 2 * Real.sin θ ∧
    (M + m) / 2 + (M - m) / 2 * Real.sin θ ≤ M := by
  have h1 := Real.sin_le_one θ
  have h2 := Real.neg_one_le_sin θ
  constructor
  · nlinarith
  · nlinarith

/-- The full 300 ms pulse period. -/
lemma totalPulse_val : CONSTANT_PULSE_BUZZ_MS + CONSTANT_PULSE_GAP_MS = (300 : ℚ) := by
  norm_num [CONSTANT_PULSE_BUZZ_MS, CONSTANT_PULSE_GAP_MS]

/-- State-transition characterization of `updateCycle`: `pulseTime` advances
by `dt * 1000`, and the phase/period indices advance together exactly when
the new period index exceeds the recorded one. -/
lemma updateCycle_state_char (cfg : Config) (dt : ℚ) (s : GenState) :
    (updateCycle cfg dt s).1.pulseTime = s.pulseTime + dt * 1000 ∧
    (updateCycle cfg dt s).1.cyclePhaseIndex =
      (if s.lastPulseCycleIndex < ⌊(s.pulseTime + dt * 1000) / 300⌋ then
        (s.cyclePhaseIndex + 1) % 4
      else s.cyclePhaseIndex) ∧
    (updateCycle cfg dt s).1.lastPulseCycleIndex =
      (if s.lastPulseCycleIndex < ⌊(s.pulseTime + dt * 1000) / 300⌋ then
        ⌊(s.pulseTime + dt * 1000) / 300⌋
      else s.lastPulseCycleIndex) := by
  unfold updateCycle
  dsimp only
  rw [totalPulse_val]
  exact ⟨rfl, rfl, rfl⟩

/-- Output characterization of `updateCycle`: within the 200 ms buzz window
the output is the `switch` pattern at the (already advanced) phase index,
otherwise it is (0, 0). -/
lemma updateCycle_out (cfg : Config) (dt : ℚ) (s : GenState) :
    (updateCycle cfg dt s).2 =
      if jsMod (updateCycle cfg dt s).1.pulseTime 300 < 200 then
        cyclePattern cfg (updateCycle cfg dt s).1.cyclePhaseIndex
      else (0, 0) := by
  unfold updateCycle
  dsimp only
  rw [totalPulse_val]
  rfl

/-- One covered, nonnegative tick takes any `CyclePre` state into the cycle
invariant.  "Covered" means the tick does not jump past a whole period:
the new period index is at most `lastPulseCycleIndex + 1`. -/
lemma updateCycle_preserves_inv (cfg : Config) (dt : ℚ) (s : GenState)
    (hdt : 0 ≤ dt) (hs : CyclePre s)
    (hcov : ⌊(s.pulseTime + dt * 1000) / 300⌋ ≤ s.lastPulseCycleIndex + 1) :
    CycleInv (updateCycle cfg dt s).1 := by
  obtain ⟨hpt, hph, hlast⟩ := updateCycle_state_char cfg dt s
  rcases hs with ⟨h0, h1, h2⟩ | ⟨h0, h1, h2⟩
  · have hpt' : 0 ≤ s.pulseTime + dt * 1000 := by linarith
    have hmono : ⌊s.pulseTime / 300⌋ ≤ ⌊(s.pulseTime + dt * 1000) / 300⌋ := by
      apply Int.floor_le_floor
      have h1000 : (0 : ℚ) ≤ dt * 1000 := by positivity
      gcongr
      linarith
    by_cases hadv : s.lastPulseCycleIndex < ⌊(s.pulseTime + dt * 1000) / 300⌋
    · rw [if_pos hadv] at hph hlast
      refine ⟨by rw [hpt]; exact hpt', by rw [hlast, hpt], ?_⟩
      rw [hph, hlast, h2]
      have : ⌊(s.pulseTime + dt * 1000) / 300⌋ = s.lastPulseCycleIndex + 1 :=
        le_antisymm hcov hadv
      omega
    · rw [if_neg hadv] at hph hlast
      push_neg at hadv
      have hidx : ⌊(s.pulseTime + dt * 1000) / 300⌋ = s.lastPulseCycleIndex := by
        rw [h1] at hadv ⊢
        omega
      exact ⟨by rw [hpt]; exact hpt', by rw [hlast, hpt, hidx], by rw [hph, hlast, h2]⟩
  · have hpt' : 0 ≤ s.pulseTime + dt * 1000 := by
      rw [h0]
      positivity
    have hge : (0 : ℤ) ≤ ⌊(s.pulseTime + dt * 1000) / 300⌋ := by
      apply Int.le_floor.mpr
      push_cast
      positivity
    have hidx : ⌊(s.pulseTime + dt * 1000) / 300⌋ = 0 := by
      rw [h1] at hcov
      omega
    have hadv : s.lastPulseCycleIndex < ⌊(s.pulseTime + dt * 1000) / 300⌋ := by
      rw [h1, hidx]
      norm_num
    rw [if_pos hadv] at hph hlast
    refine ⟨by rw [hpt]; exact hpt', by rw [hlast, hpt], ?_⟩
    rw [hph, hlast, h2, hidx]

/-- `CycleCovers` splits along list append. -/
lemma cycleCovers_append (cfg : Config) (l₁ l₂ : List ℚ) (s : GenState) :
    CycleCovers cfg (l₁ ++ l₂) s ↔
      CycleCovers cfg l₁ s ∧ CycleCovers cfg l₂ (runCycle cfg l₁ s) := by
  induction l₁ generalizing s with
  | nil => simp [CycleCovers, runCycle]
  | cons dt rest ih =>
    simp only [List.cons_append, CycleCovers, runCycle, List.append_eq, ih, and_assoc]

/-- Running covered, nonnegative ticks preserves `CyclePre`. -/
lemma runCycle_preserves_pre (cfg : Config) (l : List ℚ) (s : GenState)
    (hl : ∀ d ∈ l, 0 ≤ d) (hs : CyclePre s) (hcov : CycleCovers cfg l s) :
    CyclePre (runCycle cfg l s) := by
  induction l generalizing s with
  | nil => exact hs
  | cons dt rest ih =>
    simp only [CycleCovers] at hcov
    rw [totalPulse_val] at hcov
    simp only [runCycle]
    refine ih _ (fun d hd => hl d (List.mem_cons_of_mem _ hd)) ?_ hcov.2
    exact Or.inl (updateCycle_preserves_inv cfg dt s
      (hl dt (List.mem_cons_self _ _)) hs hcov.1)

/-! ## Claim theorems -/

/-- Claim C6: in stochastic mode, on every tick at least one of the two output
channels is exactly 0 — the left and right outputs are never both nonzero,
for every configuration, random draws, `dt` and state. -/
theorem stochastic_one_channel_silent (cfg : Config) (r : Rand) (dt : ℚ)
    (s : GenState) :
    (updateStochastic cfg r dt s).2.1 = 0 ∨ (updateStochastic cfg r dt s).2.2 = 0 := by
  unfold updateStochastic
  dsimp only
  repeat' split
  all_goals simp

/-- Claim C8: in cycle mode, one `advance` call changes `cyclePhaseIndex` by at
most one step (mod 4): the new index is either the old one or the old one plus
one mod 4, even when `dt` spans several full pulse periods. -/
theorem cycle_phase_advances_at_most_once (cfg : Config) (dt : ℚ) (s : GenState) :
    (updateCycle cfg dt s).1.cyclePhaseIndex = s.cyclePhaseIndex ∨
    (updateCycle cfg dt s).1.cyclePhaseIndex = (s.cyclePhaseIndex + 1) % 4 := by
  unfold updateCycle
  dsimp only
  split
  · exact Or.inr rfl
  · exact Or.inl rfl

/-- Claim C5: breathing mode substitutes a 1-second period for any period that
is zero or negative, so the denominators of `baseFreq` and `beatFreq` are
always positive and never exactly the degenerate input. -/
theorem breathing_effective_period_pos (p : ℚ) :
    0 < breathingEffectivePeriod p ∧ (p ≤ 0 → breathingEffectivePeriod p = 1) := by
  unfold breathingEffectivePeriod
  split
  · exact ⟨by assumption, fun h => absurd h (by linarith)⟩
  · exact ⟨one_pos, fun _ => rfl⟩

/-- Witness for `breathing_effective_period_pos` at the concrete period `-3`. -/
theorem breathing_effective_period_pos_witness :
    0 < breathingEffectivePeriod (-3) ∧ breathingEffectivePeriod (-3) = 1 :=
  ⟨(breathing_effective_period_pos (-3)).1,
   (breathing_effective_period_pos (-3)).2 (by norm_num)⟩

/-- Claim C10: each mode's update mutates only its own mode family's state
fields: `updateStochastic` leaves `pulseTime`, `cyclePhaseIndex`,
`lastPulseCycleIndex` and `breathingTime` unchanged; `updateBreathingPulse`
changes only `breathingTime`; `updateConstant` changes only `pulseTime`;
`updateCycle` leaves `currentTime`, the stochastic fields and `breathingTime`
unchanged. -/
theorem update_frame_conditions (cfg : Config) (mode : Mode) (r : Rand)
    (d1 d2 d3 d4 : ℚ) (s : GenState) :
    ((updateStochastic cfg r d1 s).1.pulseTime = s.pulseTime ∧
     (updateStochastic cfg r d1 s).1.cyclePhaseIndex = s.cyclePhaseIndex ∧
     (updateStochastic cfg r d1 s).1.lastPulseCycleIndex = s.lastPulseCycleIndex ∧
     (updateStochastic cfg r d1 s).1.breathingTime = s.breathingTime) ∧
    ((updateBreathingPulse cfg d2 s).1.currentTime = s.currentTime ∧
     (updateBreathingPulse cfg d2 s).1.stochasticPhase = s.stochasticPhase ∧
     (updateBreathingPulse cfg d2 s).1.stochasticPhaseEndTime = s.stochasticPhaseEndTime ∧
     (updateBreathingPulse cfg d2 s).1.stochasticNextMotor = s.stochasticNextMotor ∧
     (updateBreathingPulse cfg d2 s).1.pulseTime = s.pulseTime ∧
     (updateBreathingPulse cfg d2 s).1.cyclePhaseIndex = s.cyclePhaseIndex ∧
     (updateBreathingPulse cfg d2 s).1.lastPulseCycleIndex = s.lastPulseCycleIndex) ∧
    ((updateConstant cfg mode d3 s).1.currentTime = s.currentTime ∧
     (updateConstant cfg mode d3 s).1.stochasticPhase = s.stochasticPhase ∧
     (updateConstant cfg mode d3 s).1.stochasticPhaseEndTime = s.stochasticPhaseEndTime ∧
     (updateConstant cfg mode d3 s).1.stochasticNextMotor = s.stochasticNextMotor ∧
     (updateConstant cfg mode d3 s).1.cyclePhaseIndex = s.cyclePhaseIndex ∧
     (updateConstant cfg mode d3 s).1.lastPulseCycleIndex = s.lastPulseCycleIndex ∧
     (updateConstant cfg mode d3 s).1.breathingTime = s.breathingTime) ∧
    ((updateCycle cfg d4 s).1.currentTime = s.currentTime ∧
     (updateCycle cfg d4 s).1.stochasticPhase = s.stochasticPhase ∧
     (updateCycle cfg d4 s).1.stochasticPhaseEndTime = s.stochasticPhaseEndTime ∧
     (updateCycle cfg d4 s).1.stochasticNextMotor = s.stochasticNextMotor ∧
     (updateCycle cfg d4 s).1.breathingTime = s.breathingTime) := by
  refine ⟨?_, ?_, ?_, ?_⟩
  · unfold updateStochastic
    dsimp only
    repeat' split
    all_goals simp
  · unfold updateBreathingPulse
    exact ⟨rfl, rfl, rfl, rfl, rfl, rfl, rfl⟩
  · unfold updateConstant
    exact ⟨rfl, rfl, rfl, rfl, rfl, rfl, rfl⟩
  · unfold updateCycle
    dsimp only
    exact ⟨rfl, rfl, rfl, rfl, rfl⟩

/-- Claim C4 counterexample: one stochastic tick with a motor draw ≥ 0.5 sets
`stochasticNextMotor` to `right`; a subsequent `start()` leaves it `right`,
while a freshly constructed generator has it `left`, so the post-`start()`
state is not identical to a fresh one. -/
theorem start_keeps_next_motor :
    (start (updateStochastic cfg0 ⟨0, 3/5, 0⟩ 0 initState).1).stochasticNextMotor
        = Motor.right ∧
    initState.stochasticNextMotor = Motor.left ∧
    start (updateStochastic cfg0 ⟨0, 3/5, 0⟩ 0 initState).1 ≠ initState := by
  norm_num [updateStochastic, start, initState, cfg0, GenState.mk.injEq]
  decide

/-- Claim C4 (amended): `start()` returns every field of the generator state
to its initial value except `stochasticNextMotor`, which keeps its previous
value: the post-`start()` state equals the fresh state with only
`stochasticNextMotor` carried over. -/
theorem start_resets_all_but_next_motor (s : GenState) :
    start s = { initState with stochasticNextMotor := s.stochasticNextMotor } := rfl

/-- Claim C3 counterexample: with `weakIntensity = 50` and dt = 0.05 s, the
first five ticks after a fresh `start()` output 50,50,50,0,0 — the fourth tick
(at `pulseTime` exactly 200 ms) is already silent, so the claimed group shape
50,50,50,50,0 is wrong. -/
theorem constant_weak_fourth_tick_zero :
    constantTrace { cfg0 with weakIntensity := 50 } .constant_weak
        [1/20, 1/20, 1/20, 1/20, 1/20] (start initState) =
      [(50, 50), (50, 50), (50, 50), (0, 0), (0, 0)] ∧
    constantTrace { cfg0 with weakIntensity := 50 } .constant_weak
        [1/20, 1/20, 1/20, 1/20, 1/20] (start initState) ≠
      [(50, 50), (50, 50), (50, 50), (50, 50), (0, 0)] := by
  norm_num [constantTrace, updateConstant, start, initState, jsMod, jsTrunc,
    CONSTANT_PULSE_BUZZ_MS, CONSTANT_PULSE_GAP_MS, cfg0, Prod.ext_iff]

/-- Claim C3 (amended): with `mode = constant_weak`, `weakIntensity = 50` and
20 ticks of dt = 0.05 s from a fresh `start()`, the outputs follow the 300 ms
duty cycle sampled at 50 ms: a tick is 50 exactly when its `pulseTime` mod
300 ms is below 200 ms, giving the 6-tick-periodic stream
50,50,50,0,0,50 (the tick landing exactly on 200 ms is silent). -/
theorem constant_weak_trace_50ms :
    constantTrace { cfg0 with weakIntensity := 50 } .constant_weak
        [1/20, 1/20, 1/20, 1/20, 1/20, 1/20, 1/20, 1/20, 1/20, 1/20,
         1/20, 1/20, 1/20, 1/20, 1/20, 1/20, 1/20, 1/20, 1/20, 1/20]
        (start initState) =
      [(50, 50), (50, 50), (50, 50), (0, 0), (0, 0),
       (50, 50), (50, 50), (50, 50), (50, 50), (0, 0),
       (0, 0), (50, 50), (50, 50), (50, 50), (50, 50),
       (0, 0), (0, 0), (50, 50), (50, 50), (50, 50)] := by
  norm_num [constantTrace, updateConstant, start, initState, jsMod, jsTrunc,
    CONSTANT_PULSE_BUZZ_MS, CONSTANT_PULSE_GAP_MS, cfg0]

/-- Claim C2 counterexample: in `constant_weak` mode with `weakIntensity = 50`,
`start()` followed by one advance with dt = 0 outputs (50, 50), not (0, 0):
the pulse starts inside its buzz window. -/
theorem advance_zero_dt_not_silent :
    (updateConstant { cfg0 with weakIntensity := 50 } .constant_weak 0
        (start initState)).2 = (50, 50) ∧
    ((50 : ℚ), (50 : ℚ)) ≠ ((0 : ℚ), (0 : ℚ)) := by
  norm_num [updateConstant, start, initState, jsMod, jsTrunc,
    CONSTANT_PULSE_BUZZ_MS, CONSTANT_PULSE_GAP_MS, cfg0]

/-- Claim C2 (amended): `start()` followed by one advance with dt = 0 emits
each mode's time-zero buzz output rather than (0,0): the constant modes emit
their configured intensity on both channels, cycle mode emits
(max, max) (its phase sequencer already advanced to phase 1 on the first
tick), stochastic mode transitions immediately to `buzz` and emits
`(base draw) * 0.3` on the randomly drawn motor and 0 on the other, and
breathing mode emits `center + amplitude * sin 0 = center` on both channels. -/
theorem advance_zero_dt_outputs (cfg : Config) (r : Rand) (s : GenState)
    (_hpk : 0 < cfg.peakTime) :
    (updateConstant cfg .constant_weak 0 (start s)).2
        = (cfg.weakIntensity, cfg.weakIntensity) ∧
    (updateConstant cfg .constant_strong 0 (start s)).2
        = (cfg.strongIntensity, cfg.strongIntensity) ∧
    (updateConstant cfg .constant_max 0 (start s)).2
        = (cfg.maxIntensity, cfg.maxIntensity) ∧
    (updateCycle cfg 0 (start s)).2 = (cfg.maxIntensity, cfg.maxIntensity) ∧
    (updateStochastic cfg r 0 (start s)).2 =
      (if r.motorDraw < 1/2
        then ((r.intensityDraw * (cfg.strongIntensity - cfg.weakIntensity)
                + cfg.weakIntensity) * (3/10), 0)
        else (0, (r.intensityDraw * (cfg.strongIntensity - cfg.weakIntensity)
                + cfg.weakIntensity) * (3/10))) ∧
    (updateBreathingPulse cfg 0 (start s)).2 =
      ((((cfg.maxIntensity + cfg.breathingPulseMinIntensity) / 2 : ℚ) : ℝ),
       (((cfg.maxIntensity + cfg.breathingPulseMinIntensity) / 2 : ℚ) : ℝ)) := by
  refine ⟨?_, ?_, ?_, ?_, ?_, ?_⟩
  · simp [updateConstant, start, jsMod, jsTrunc, CONSTANT_PULSE_BUZZ_MS,
      CONSTANT_PULSE_GAP_MS]
  · simp [updateConstant, start, jsMod, jsTrunc, CONSTANT_PULSE_BUZZ_MS,
      CONSTANT_PULSE_GAP_MS]
  · simp [updateConstant, start, jsMod, jsTrunc, CONSTANT_PULSE_BUZZ_MS,
      CONSTANT_PULSE_GAP_MS]
  · simp [updateCycle, start, jsMod, jsTrunc, cyclePattern, CONSTANT_PULSE_BUZZ_MS,
      CONSTANT_PULSE_GAP_MS]
  · simp only [updateStochastic, start]
    norm_num
    split_ifs with hm <;> simp [globalMultiplier_zero]
  · simp [updateBreathingPulse, start]

/-- Witness for `advance_zero_dt_outputs` at the sample configuration:
`constant_weak` emits `(weakIntensity, weakIntensity)` on the dt = 0 tick
after `start()`. -/
theorem advance_zero_dt_outputs_witness :
    (updateConstant cfg0 .constant_weak 0 (start initState)).2
      = (cfg0.weakIntensity, cfg0.weakIntensity) :=
  (advance_zero_dt_outputs cfg0 ⟨0, 3/5, 0⟩ initState (by norm_num [cfg0])).1

/-- Claim C7: in stochastic mode, with a positive `peakTimeSeconds` and
nonnegative `dt` ticks since `start()`, the envelope multiplier
`0.3 + 0.7·(min 1 (currentTime/peakTime))²` never exceeds 1 on any tick, and
equals exactly 1 on every tick where `currentTime ≥ peakTimeSeconds`. -/
theorem stochastic_envelope_saturates (cfg : Config) (ticks : List (Rand × ℚ))
    (s₀ : GenState) (hpk : 0 < cfg.peakTime) (hdt : ∀ p ∈ ticks, 0 ≤ p.2) :
    globalMultiplier cfg (runStochastic cfg ticks (start s₀)).currentTime ≤ 1 ∧
    (cfg.peakTime ≤ (runStochastic cfg ticks (start s₀)).currentTime →
      globalMultiplier cfg (runStochastic cfg ticks (start s₀)).currentTime = 1) :=
  globalMultiplier_bounds cfg _ hpk
    (runStochastic_currentTime_nonneg cfg ticks (start s₀) le_rfl hdt)

/-- Witness for `stochastic_envelope_saturates`: a single 100-second tick
carries `currentTime` past the 60-second peak time, where the envelope
equals exactly 1. -/
theorem stochastic_envelope_saturates_witness :
    globalMultiplier cfg0
        (runStochastic cfg0 [(⟨0, 0, 0⟩, 100)] (start initState)).currentTime ≤ 1 ∧
    globalMultiplier cfg0
        (runStochastic cfg0 [(⟨0, 0, 0⟩, 100)] (start initState)).currentTime = 1 :=
  ⟨(stochastic_envelope_saturates cfg0 [(⟨0, 0, 0⟩, 100)] initState
      (by norm_num [cfg0]) (by norm_num)).1,
   (stochastic_envelope_saturates cfg0 [(⟨0, 0, 0⟩, 100)] initState
      (by norm_num [cfg0]) (by norm_num)).2
      (by norm_num [runStochastic, updateStochastic, start, initState, cfg0])⟩

/-- Claim C9: in breathing mode, whenever
`breathingPulseMinIntensity ≤ maxIntensity`, both returned channel
intensities lie in `[breathingPulseMinIntensity, maxIntensity]` on every
tick, for every state and `dt`. -/
theorem breathing_output_bounded (cfg : Config) (dt : ℚ) (s : GenState)
    (h : cfg.breathingPulseMinIntensity ≤ cfg.maxIntensity) :
    ((cfg.breathingPulseMinIntensity : ℝ) ≤ (updateBreathingPulse cfg dt s).2.1 ∧
      (updateBreathingPulse cfg dt s).2.1 ≤ (cfg.maxIntensity : ℝ)) ∧
    ((cfg.breathingPulseMinIntensity : ℝ) ≤ (updateBreathingPulse cfg dt s).2.2 ∧
      (updateBreathingPulse cfg dt s).2.2 ≤ (cfg.maxIntensity : ℝ)) := by
  have hmM : (cfg.breathingPulseMinIntensity : ℝ) ≤ (cfg.maxIntensity : ℝ) := by
    exact_mod_cast h
  rw [updateBreathingPulse_out]
  constructor
  · have hb := center_amp_bounds (cfg.breathingPulseMinIntensity : ℝ)
      (cfg.maxIntensity : ℝ)
      (2 * Real.pi *
        ((1 / breathingEffectivePeriod cfg.breathingPulsePeriod : ℚ) : ℝ) *
        ((s.breathingTime + dt : ℚ) : ℝ)) hmM
    constructor
    · refine le_trans hb.1 (le_of_eq ?_)
      push_cast
      ring
    · refine le_trans (le_of_eq ?_) hb.2
      push_cast
      ring
  · have hb := center_amp_bounds (cfg.breathingPulseMinIntensity : ℝ)
      (cfg.maxIntensity : ℝ)
      (2 * Real.pi *
        ((1 / breathingEffectivePeriod cfg.breathingPulsePeriod +
          1 / breathingEffectivePeriod cfg.breathingPulseSyncPeriod : ℚ) : ℝ) *
        ((s.breathingTime + dt : ℚ) : ℝ)) hmM
    constructor
    · refine le_trans hb.1 (le_of_eq ?_)
      push_cast
      ring
    · refine le_trans (le_of_eq ?_) hb.2
      push_cast
      ring

/-- Claim C1 counterexample: with `strongIntensity = 150` and
`maxIntensity = 255`, the first tick (dt = 0.1 s) after a fresh `start()`
lands in the buzz window of the first 300 ms period yet emits (255, 255) —
`(maxIntensity, maxIntensity)`, not `(strongIntensity, strongIntensity)`:
the sequencer already advanced to phase 1 on the first tick. -/
theorem cycle_first_window_not_strong :
    ⌊(updateCycle cfg0 (1/10) (start initState)).1.pulseTime / 300⌋ = 0 ∧
    jsMod (updateCycle cfg0 (1/10) (start initState)).1.pulseTime 300 < 200 ∧
    (updateCycle cfg0 (1/10) (start initState)).2 = (255, 255) ∧
    (updateCycle cfg0 (1/10) (start initState)).2
      ≠ (cfg0.strongIntensity, cfg0.strongIntensity) := by
  norm_num [updateCycle, start, initState, cfg0, jsMod, jsTrunc, cyclePattern,
    CONSTANT_PULSE_BUZZ_MS, CONSTANT_PULSE_GAP_MS, Prod.ext_iff]

/-- Claim C1 (amended): in cycle mode from a fresh `start()`, for every tick
sequence of nonnegative `dt`s in which no tick skips a whole 300 ms period
(so every period is covered), any tick landing in the 200 ms buzz window of
period `k` emits the `switch` pattern at index `(k + 1) % 4`.  Hence the
periods 0,1,2,3 emit (max,max), (max,0), (0,max), (strong,strong) — the
spec's list rotated by one — and this 4-period sequence repeats. -/
theorem cycle_covered_buzz_window_pattern (cfg : Config) (dts : List ℚ) (d : ℚ)
    (s₀ : GenState) (hdts : ∀ x ∈ dts, 0 ≤ x) (hd : 0 ≤ d)
    (hcov : CycleCovers cfg (dts ++ [d]) (start s₀))
    (hbuzz : jsMod (updateCycle cfg d (runCycle cfg dts (start s₀))).1.pulseTime 300
      < 200) :
    (updateCycle cfg d (runCycle cfg dts (start s₀))).2 =
      cyclePattern cfg
        ((⌊(updateCycle cfg d (runCycle cfg dts (start s₀))).1.pulseTime / 300⌋ + 1)
          % 4) := by
  rw [cycleCovers_append] at hcov
  obtain ⟨hcov₁, hcov₂⟩ := hcov
  simp only [CycleCovers] at hcov₂
  rw [totalPulse_val] at hcov₂
  have hpre : CyclePre (runCycle cfg dts (start s₀)) :=
    runCycle_preserves_pre cfg dts (start s₀) hdts (Or.inr ⟨rfl, rfl, rfl⟩) hcov₁
  have hinv : CycleInv (updateCycle cfg d (runCycle cfg dts (start s₀))).1 :=
    updateCycle_preserves_inv cfg d (runCycle cfg dts (start s₀)) hd hpre hcov₂.1
  obtain ⟨-, hlast, hphase⟩ := hinv
  rw [updateCycle_out cfg d (runCycle cfg dts (start s₀)), if_pos hbuzz, hphase, hlast]

/-- Witness for `cycle_covered_buzz_window_pattern`: ticks 0.1 s then 0.05 s
from a fresh start keep `pulseTime` inside period 0's buzz window, where the
output matches the pattern at index `(0 + 1) % 4 = 1`, i.e. (max, max). -/
theorem cycle_covered_buzz_window_pattern_witness :
    (updateCycle cfg0 (1/20) (runCycle cfg0 [1/10] (start initState))).2 =
      cyclePattern cfg0
        ((⌊(updateCycle cfg0 (1/20) (runCycle cfg0 [1/10] (start initState))).1.pulseTime
            / 300⌋ + 1) % 4) :=
  cycle_covered_buzz_window_pattern cfg0 [1/10] (1/20) initState
    (by norm_num) (by norm_num)
    (by norm_num [CycleCovers, runCycle, updateCycle, start, initState, jsMod,
      jsTrunc, CONSTANT_PULSE_BUZZ_MS, CONSTANT_PULSE_GAP_MS])
    (by norm_num [runCycle, updateCycle, start, initState, jsMod, jsTrunc,
      CONSTANT_PULSE_BUZZ_MS, CONSTANT_PULSE_GAP_MS])

/-- Witness for `breathing_output_bounded` at the sample configuration
(min 50, max 255), on the first tick after construction. -/
theorem breathing_output_bounded_witness :
    ((cfg0.breathingPulseMinIntensity : ℝ)
        ≤ (updateBreathingPulse cfg0 0 initState).2.1 ∧
      (updateBreathingPulse cfg0 0 initState).2.1 ≤ (cfg0.maxIntensity : ℝ)) ∧
    ((cfg0.breathingPulseMinIntensity : ℝ)
        ≤ (updateBreathingPulse cfg0 0 initState).2.2 ∧
      (updateBreathingPulse cfg0 0 initState).2.2 ≤ (cfg0.maxIntensity : ℝ)) :=
  breathing_output_bounded cfg0 0 initState (by norm_num [cfg0])

end Wave2Joy
